import Mathlib

/-!
Verification development for the pool + cache-aside core of the
`performant_python` repository.

The embedding covers:
* `src/lib/valkey_cache.py` — xxh64-based cache-key derivation
  (`generate_cache_key`), the `ValkeyCache.get`/`ValkeyCache.set`
  error-absorbing cache primitives, and the `valkey_cache` memoizing
  decorator's wrapper;
* `src/lib/duckdb_client.py` — the bounded blocking connection pool
  (`_initialize_pool`, `_get_connection`, `_return_connection`, the
  `connection()` scoped-acquisition context manager);
* `src/lib/postgres_client.py` — `PostgresPool.init_pool` retry loop.

Machine words are `Nat` taken modulo `2^64`; Python byte strings are
`List Nat` (each entry < 256); fallible code is embedded in `Except`.
-/

set_option maxRecDepth 40000
set_option maxHeartbeats 2000000

namespace PerfPy

/-- Truncate to a 64-bit machine word, as every arithmetic step of xxh64 does. -/
def w64 (x : Nat) : Nat := x % (2 ^ 64)

/-- 64-bit left rotation. -/
def rotl64 (x r : Nat) : Nat := w64 ((x <<< r) ||| (x >>> (64 - r)))

def prime1 : Nat := 11400714785074694791
def prime2 : Nat := 14029467366897019727
def prime3 : Nat := 1609587929392839161
def prime4 : Nat := 9650029242287828579
def prime5 : Nat := 2870177450012600261

/-- One xxh64 accumulator round. -/
def xxhRound (acc lane : Nat) : Nat :=
  w64 (rotl64 (w64 (acc + w64 (lane * prime2))) 31 * prime1)

/-- xxh64 merge step used when folding the four stripe accumulators. -/
def xxhMerge (acc accN : Nat) : Nat :=
  w64 (w64 ((acc ^^^ xxhRound 0 accN) * prime1) + prime4)

/-- Read a little-endian machine integer from a byte list. -/
def leNat (bs : List Nat) : Nat := bs.foldr (fun b acc => b + 256 * acc) 0

/-- Process 32-byte stripes of the input, updating the four lane accumulators.
The fuel argument is initialised with the byte count, which bounds the number
of stripes; it exists only to make the recursion structural. -/
def consumeStripes (fuel : Nat) (a1 a2 a3 a4 : Nat) (bs : List Nat) :
    (Nat × Nat × Nat × Nat) × List Nat :=
  match fuel with
  | 0 => ((a1, a2, a3, a4), bs)
  | fuel + 1 =>
    if 32 ≤ bs.length then
      consumeStripes fuel
        (xxhRound a1 (leNat (bs.take 8)))
        (xxhRound a2 (leNat ((bs.drop 8).take 8)))
        (xxhRound a3 (leNat ((bs.drop 16).take 8)))
        (xxhRound a4 (leNat ((bs.drop 24).take 8)))
        (bs.drop 32)
    else ((a1, a2, a3, a4), bs)

/-- Tail loop: fold remaining 8-byte lanes into the accumulator. -/
def consume8 (acc : Nat) : List Nat → Nat × List Nat
  | b0 :: b1 :: b2 :: b3 :: b4 :: b5 :: b6 :: b7 :: rest =>
    consume8
      (w64 (rotl64 (acc ^^^ xxhRound 0 (leNat [b0, b1, b2, b3, b4, b5, b6, b7])) 27
        * prime1 + prime4))
      rest
  | bs => (acc, bs)

/-- Tail loop: fold remaining 4-byte lanes into the accumulator. -/
def consume4 (acc : Nat) : List Nat → Nat × List Nat
  | b0 :: b1 :: b2 :: b3 :: rest =>
    consume4
      (w64 (rotl64 (acc ^^^ w64 (leNat [b0, b1, b2, b3] * prime1)) 23
        * prime2 + prime3))
      rest
  | bs => (acc, bs)

/-- Tail loop: fold remaining single bytes into the accumulator. -/
def consume1 (acc : Nat) : List Nat → Nat
  | [] => acc
  | b :: rest => consume1 (w64 (rotl64 (acc ^^^ w64 (b * prime5)) 11 * prime1)) rest

/-- xxh64 avalanche finalisation. -/
def xxhAvalanche (acc : Nat) : Nat :=
  let acc := acc ^^^ (acc >>> 33)
  let acc := w64 (acc * prime2)
  let acc := acc ^^^ (acc >>> 29)
  let acc := w64 (acc * prime3)
  acc ^^^ (acc >>> 32)

/-- The xxh64 hash of a byte string, as computed by `xxhash.xxh64` from the
xxhash library used by `generate_cache_key` (which always hashes with seed 0). -/
def xxh64 (seed : Nat) (bs : List Nat) : Nat :=
  let n := bs.length
  let start :=
    if 32 ≤ n then
      let ((a1, a2, a3, a4), rest) :=
        consumeStripes n (w64 (seed + prime1 + prime2)) (w64 (seed + prime2))
          (w64 seed) (w64 (2 ^ 64 + seed - prime1)) bs
      let acc := w64 (rotl64 a1 1 + rotl64 a2 7 + rotl64 a3 12 + rotl64 a4 18)
      let acc := xxhMerge acc a1
      let acc := xxhMerge acc a2
      let acc := xxhMerge acc a3
      let acc := xxhMerge acc a4
      (acc, rest)
    else (w64 (seed + prime5), bs)
  let acc := w64 (start.1 + n)
  let s8 := consume8 acc start.2
  let s4 := consume4 s8.1 s8.2
  xxhAvalanche (consume1 s4.1 s4.2)

/-- Lowercase hexadecimal digit. -/
def hexDigit (n : Nat) : Char :=
  if n < 10 then Char.ofNat (48 + n) else Char.ofNat (87 + n)

/-- Fixed-width lowercase hexadecimal rendering (zero padded), most significant
digit first. -/
def hexChars : Nat → Nat → List Char
  | 0, _ => []
  | width + 1, n => hexChars width (n / 16) ++ [hexDigit (n % 16)]

/-- `hexdigest()` of an xxh64 state: the 64-bit digest as 16 lowercase hex
characters. -/
def hexDigest64 (h : Nat) : String := String.mk (hexChars 16 h)

/-- The lowercase hexadecimal alphabet. -/
def hexAlphabet : List Char := "0123456789abcdef".data

/-- UTF-8 encoding of one character, as `str.encode()` produces it. -/
def utf8Bytes (c : Char) : List Nat :=
  let n := c.toNat
  if n < 128 then [n]
  else if n < 2048 then [192 ||| (n >>> 6), 128 ||| (n &&& 63)]
  else if n < 65536 then
    [224 ||| (n >>> 12), 128 ||| ((n >>> 6) &&& 63), 128 ||| (n &&& 63)]
  else
    [240 ||| (n >>> 18), 128 ||| ((n >>> 12) &&& 63),
     128 ||| ((n >>> 6) &&& 63), 128 ||| (n &&& 63)]

/-- UTF-8 bytes of a string (`key_string.encode()` in the source). -/
def strBytes (s : String) : List Nat := s.data.flatMap utf8Bytes

/-! ## Python values and JSON serialization

`PyValue` is the embedding universe for the Python values that flow through
the cache: `None`, booleans, integers, strings and (tuples/)lists of these.
These are exactly the JSON-representable values the serializers used by the
source (`json.dumps` for key derivation, `orjson.dumps`/`orjson.loads` for
storage) handle without a fallback hook. -/

inductive PyValue where
  | none
  | bool (b : Bool)
  | int (n : Int)
  | str (s : String)
  | list (xs : List PyValue)

mutual

/-- Decidable equality on `PyValue` (hand-rolled: the nested `List` defeats
the derive handler). -/
def pyDecEq : (a b : PyValue) → Decidable (a = b)
  | .none, .none => isTrue rfl
  | .none, .bool _ => isFalse nofun
  | .none, .int _ => isFalse nofun
  | .none, .str _ => isFalse nofun
  | .none, .list _ => isFalse nofun
  | .bool _, .none => isFalse nofun
  | .bool a, .bool b =>
    match decEq a b with
    | isTrue h => isTrue (by rw [h])
    | isFalse h => isFalse (fun hh => h (by cases hh; rfl))
  | .bool _, .int _ => isFalse nofun
  | .bool _, .str _ => isFalse nofun
  | .bool _, .list _ => isFalse nofun
  | .int _, .none => isFalse nofun
  | .int _, .bool _ => isFalse nofun
  | .int a, .int b =>
    match decEq a b with
    | isTrue h => isTrue (by rw [h])
    | isFalse h => isFalse (fun hh => h (by cases hh; rfl))
  | .int _, .str _ => isFalse nofun
  | .int _, .list _ => isFalse nofun
  | .str _, .none => isFalse nofun
  | .str _, .bool _ => isFalse nofun
  | .str _, .int _ => isFalse nofun
  | .str a, .str b =>
    match decEq a b with
    | isTrue h => isTrue (by rw [h])
    | isFalse h => isFalse (fun hh => h (by cases hh; rfl))
  | .str _, .list _ => isFalse nofun
  | .list _, .none => isFalse nofun
  | .list _, .bool _ => isFalse nofun
  | .list _, .int _ => isFalse nofun
  | .list _, .str _ => isFalse nofun
  | .list xs, .list ys =>
    match pyDecEqList xs ys with
    | isTrue h => isTrue (by rw [h])
    | isFalse h => isFalse (fun hh => h (by cases hh; rfl))

/-- Decidable equality on lists of `PyValue`. -/
def pyDecEqList : (xs ys : List PyValue) → Decidable (xs = ys)
  | [], [] => isTrue rfl
  | [], _ :: _ => isFalse nofun
  | _ :: _, [] => isFalse nofun
  | x :: xs, y :: ys =>
    match pyDecEq x y, pyDecEqList xs ys with
    | isTrue h1, isTrue h2 => isTrue (by rw [h1, h2])
    | isFalse h1, _ => isFalse (fun hh => h1 (by cases hh; rfl))
    | _, isFalse h2 => isFalse (fun hh => h2 (by cases hh; rfl))

end

instance : DecidableEq PyValue := pyDecEq

/-- JSON escape of one character inside a string literal. `ascii = true`
follows `json.dumps` (default `ensure_ascii=True`: non-ASCII code points are
`\uXXXX`-escaped, with surrogate pairs beyond the BMP); `ascii = false`
follows `orjson.dumps` (UTF-8 output, only mandatory escapes). -/
def escapeChar (ascii : Bool) (c : Char) : List Char :=
  if c = '"' then ['\\', '"']
  else if c = '\\' then ['\\', '\\']
  else if c = '\n' then ['\\', 'n']
  else if c = '\t' then ['\\', 't']
  else if c = '\r' then ['\\', 'r']
  else if c.toNat = 8 then ['\\', 'b']
  else if c.toNat = 12 then ['\\', 'f']
  else if c.toNat < 32 then '\\' :: 'u' :: hexChars 4 c.toNat
  else if ascii ∧ 126 < c.toNat then
    if c.toNat < 65536 then '\\' :: 'u' :: hexChars 4 c.toNat
    else
      let n := c.toNat - 65536
      ('\\' :: 'u' :: hexChars 4 (55296 + n / 1024)) ++
        ('\\' :: 'u' :: hexChars 4 (56320 + n % 1024))
  else [c]

/-- JSON string literal for `s`, under the given escaping regime. -/
def dumpStr (ascii : Bool) (s : String) : String :=
  "\"" ++ String.mk (s.data.flatMap (escapeChar ascii)) ++ "\""

mutual

/-- JSON rendering of a `PyValue`. `isep` is the array item separator:
`", "` for `json.dumps` (default separators), `","` for `orjson.dumps`. -/
def dumpVal (ascii : Bool) (isep : String) : PyValue → String
  | .none => "null"
  | .bool true => "true"
  | .bool false => "false"
  | .int n => toString n
  | .str s => dumpStr ascii s
  | .list xs => "[" ++ dumpElems ascii isep xs ++ "]"

/-- JSON rendering of array elements joined by `isep`. -/
def dumpElems (ascii : Bool) (isep : String) : List PyValue → String
  | [] => ""
  | [x] => dumpVal ascii isep x
  | x :: y :: rest => dumpVal ascii isep x ++ isep ++ dumpElems ascii isep (y :: rest)

end

mutual

/-- Whether orjson can serialize the value: orjson.dumps raises `TypeError`
for integers outside the 64-bit range `[-2^63, 2^64 - 1]` (it supports both
i64 and u64), also when they occur nested inside a list. -/
def orjsonSerializable : PyValue → Bool
  | .none => true
  | .bool _ => true
  | .int n => decide (-(2 ^ 63) ≤ n) && decide (n < 2 ^ 64)
  | .str _ => true
  | .list xs => orjsonSerializableList xs

/-- `orjsonSerializable` over the elements of a list. -/
def orjsonSerializableList : List PyValue → Bool
  | [] => true
  | x :: xs => orjsonSerializable x && orjsonSerializableList xs

end

/-- `orjson.dumps(value)`: compact UTF-8 JSON, as used by `ValkeyCache.set`;
`Option.none` is the raised `TypeError` for values orjson rejects (integers
beyond the 64-bit range). -/
def orjsonDumps (v : PyValue) : Option String :=
  if orjsonSerializable v then some (dumpVal false "," v) else Option.none

/-! ### orjson.loads: a JSON parser for the stored blobs

`ValkeyCache.get` deserializes stored bytes with `orjson.loads`; a parse
failure is an exception (caught by `get`, see below). The parser is
fuel-indexed to make the recursion structural; `orjsonLoads` supplies fuel
larger than the input length, which bounds both nesting depth and item
count. -/

/-- Decimal digits to a natural number. -/
def digitsToNat (ds : List Char) : Nat :=
  ds.foldl (fun acc c => acc * 10 + (c.toNat - 48)) 0

/-- Parse a JSON integer (optional leading minus, one or more digits). -/
def parseInt : List Char → Option (PyValue × List Char)
  | '-' :: cs =>
    let ds := cs.takeWhile Char.isDigit
    if ds.isEmpty then Option.none
    else some (.int (-(digitsToNat ds : Int)), cs.dropWhile Char.isDigit)
  | cs =>
    let ds := cs.takeWhile Char.isDigit
    if ds.isEmpty then Option.none
    else some (.int (digitsToNat ds : Int), cs.dropWhile Char.isDigit)

/-- Parse the body of a JSON string literal (after the opening quote),
returning the decoded string and the input after the closing quote. -/
def parseStr (fuel : Nat) (acc : List Char) (cs : List Char) :
    Option (String × List Char) :=
  match fuel, cs with
  | 0, _ => Option.none
  | _, [] => Option.none
  | fuel + 1, c :: cs =>
    if c = '"' then some (String.mk acc.reverse, cs)
    else if c = '\\' then
      match cs with
      | 'n' :: rest => parseStr fuel ('\n' :: acc) rest
      | 't' :: rest => parseStr fuel ('\t' :: acc) rest
      | 'r' :: rest => parseStr fuel ('\r' :: acc) rest
      | 'b' :: rest => parseStr fuel (Char.ofNat 8 :: acc) rest
      | 'f' :: rest => parseStr fuel (Char.ofNat 12 :: acc) rest
      | '/' :: rest => parseStr fuel ('/' :: acc) rest
      | '"' :: rest => parseStr fuel ('"' :: acc) rest
      | '\\' :: rest => parseStr fuel ('\\' :: acc) rest
      | 'u' :: h1 :: h2 :: h3 :: h4 :: rest =>
        let hv := fun (c : Char) =>
          if c.isDigit then c.toNat - 48
          else if 97 ≤ c.toNat ∧ c.toNat ≤ 102 then c.toNat - 87
          else if 65 ≤ c.toNat ∧ c.toNat ≤ 70 then c.toNat - 55
          else 16
        if hv h1 < 16 ∧ hv h2 < 16 ∧ hv h3 < 16 ∧ hv h4 < 16 then
          parseStr fuel
            (Char.ofNat (((hv h1 * 16 + hv h2) * 16 + hv h3) * 16 + hv h4) :: acc) rest
        else Option.none
      | _ => Option.none
    else parseStr fuel (c :: acc) cs

mutual

/-- Parse one JSON value from the front of the input. -/
def parseVal : Nat → List Char → Option (PyValue × List Char)
  | 0, _ => Option.none
  | fuel + 1, cs =>
    match cs with
    | 'n' :: 'u' :: 'l' :: 'l' :: rest => some (.none, rest)
    | 't' :: 'r' :: 'u' :: 'e' :: rest => some (.bool true, rest)
    | 'f' :: 'a' :: 'l' :: 's' :: 'e' :: rest => some (.bool false, rest)
    | '"' :: rest => (parseStr (fuel + 1) [] rest).map (fun p => (.str p.1, p.2))
    | '[' :: ']' :: rest => some (.list [], rest)
    | '[' :: rest =>
      (parseItems fuel rest).map (fun p => (.list p.1, p.2))
    | cs => parseInt cs

/-- Parse comma-separated JSON values followed by a closing bracket. -/
def parseItems : Nat → List Char → Option (List PyValue × List Char)
  | 0, _ => Option.none
  | fuel + 1, cs =>
    match parseVal fuel cs with
    | Option.none => Option.none
    | some (v, rest) =>
      match rest with
      | ']' :: rest => some ([v], rest)
      | ',' :: rest =>
        (parseItems fuel rest).map (fun p => (v :: p.1, p.2))
      | _ => Option.none

end

/-- `orjson.loads(data)`: parse a complete JSON document; anything else
(bad syntax, trailing data) is a deserialization failure. The fuel passed
to the parser exceeds any possible recursion depth for the input. -/
def orjsonLoads (s : String) : Option PyValue :=
  match parseVal (2 * s.length + 2) s.data with
  | some (v, []) => some v
  | _ => Option.none

/-! ## Cache-key derivation (`generate_cache_key`) -/

/-- `json.dumps(·, sort_keys=True, default=str)` with Python's default
separators `(", ", ": ")` and `ensure_ascii=True`, on a single value. -/
def pyJsonDump (v : PyValue) : String := dumpVal true ", " v

/-- Lexicographic comparison of character lists by code point — Python's
string ordering. -/
def charListLe : List Char → List Char → Bool
  | [], _ => true
  | _ :: _, [] => false
  | a :: as, b :: bs =>
    if a = b then charListLe as bs else decide (a.toNat < b.toNat)

/-- Python's `s <= t` on strings: code-point lexicographic order. -/
def strLe (s t : String) : Bool := charListLe s.data t.data

/-- The ordering `sorted(kwargs.items())` sorts by: ascending keyword name. -/
abbrev kwLe : (String × PyValue) → (String × PyValue) → Prop :=
  fun p q => strLe p.1 q.1 = true

/-- `sorted(kwargs.items())`: keyword arguments sorted ascending. Python
compares the `(name, value)` tuples, but names are unique in a kwargs dict,
so the order is decided by the name alone; the embedding sorts by name with
a stable insertion sort, as `sorted` does. -/
def sortKwargs (kwargs : List (String × PyValue)) : List (String × PyValue) :=
  List.insertionSort kwLe kwargs

/-- The canonical `key_string` hashed by `generate_cache_key`:
`json.dumps({"args": args, "kwargs": sorted(kwargs.items())}, sort_keys=True,
default=str)`. With `sort_keys=True` the two fixed dictionary keys render in
the order `"args"`, `"kwargs"`; tuples render as JSON arrays. -/
def keyString (args : List PyValue) (kwargs : List (String × PyValue)) : String :=
  "\x7b\"args\": " ++ pyJsonDump (.list args) ++ ", \"kwargs\": " ++
    pyJsonDump (.list ((sortKwargs kwargs).map (fun p => .list [.str p.1, p.2]))) ++
    "\x7d"

/-- Python string slicing `s[:n]`: the first `n` code points. -/
def strTake (s : String) (n : Nat) : String := String.mk (s.data.take n)

/-- `generate_cache_key(prefix, *args, **kwargs)`: xxh64 (seed 0) of the
UTF-8 bytes of `key_string`, rendered as `hexdigest()[:16]`, prefixed with
`prefix` and a colon. (`pre` is the source's `prefix` argument.) -/
def generate_cache_key (pre : String) (args : List PyValue)
    (kwargs : List (String × PyValue)) : String :=
  let key_string := keyString args kwargs
  let key_hash := strTake (hexDigest64 (xxh64 0 (strBytes key_string))) 16
  pre ++ ":" ++ key_hash

/-- Modelled from the spec: the spec's `derive_key` description says "the
tuple (operation_name, args, sorted kwargs) is serialized to a canonical
string and hashed" — i.e. the operation name is part of the hashed payload.
This definition follows those words (using the same canonical JSON
serialization and the same hash as the code) so it can be compared with
`generate_cache_key`, whose hashed payload omits the operation name. -/
def specDeriveKey (pre : String) (args : List PyValue)
    (kwargs : List (String × PyValue)) : String :=
  let key_string := pyJsonDump (.list [.str pre, .list args,
    .list ((sortKwargs kwargs).map (fun p => .list [.str p.1, p.2]))])
  pre ++ ":" ++ strTake (hexDigest64 (xxh64 0 (strBytes key_string))) 16

/-! ## ValkeyCache: error-absorbing cache primitives

`ValkeyCache.get`/`ValkeyCache.set` wrap every backend interaction in
`try/except`; the backend's behaviour on one call (success with a payload,
missing key, or a raised error such as a connection failure or timeout) is
passed in as an `Except`-valued response. -/

/-- An exception raised inside the cache layer. -/
inductive CacheErr where
  | backend (msg : String)
  | deserialize
  | serialize
deriving DecidableEq

/-- `ValkeyCache`: `pool` is `self._pool`, which stays `None` until
`init_pool` assigns a client object. -/
structure ValkeyCache where
  pool : Option Unit
deriving DecidableEq

/-- The `try` block of `ValkeyCache.get`: await the backend response; a
falsy payload (`None` or empty bytes) is a miss; otherwise `orjson.loads`,
whose failure is an exception. -/
def getTryBlock (resp : Except CacheErr (Option String)) : Except CacheErr PyValue := do
  let data ← resp
  match data with
  | some s =>
    if s = "" then pure .none
    else
      match orjsonLoads s with
      | some v => pure v
      | Option.none => throw .deserialize
  | Option.none => pure .none

/-- `ValkeyCache.get(key)`. `resp` is the backend's response to
`self._pool.get(key)`. No pool → `None`; otherwise the `try` block runs
and any exception it raises is caught, logged and turned into `None`. -/
def ValkeyCache.get (self : ValkeyCache) (resp : Except CacheErr (Option String)) :
    Except CacheErr PyValue :=
  match self.pool with
  | Option.none => .ok .none
  | some _ =>
    match getTryBlock resp with
    | .ok v => .ok v
    | .error _ => .ok .none

/-- The `try` block of `ValkeyCache.set`: serialize, then `setex`. -/
def setTryBlock (ser : Except CacheErr String) (setexResp : Except CacheErr Unit) :
    Except CacheErr Unit := do
  let _ ← ser
  setexResp

/-- `ValkeyCache.set(key, value, ttl)`. `ser` is the outcome of
`orjson.dumps(value)` and `setexResp` the backend's response to `setex`;
both run inside the `try`, and any exception is caught and logged. -/
def ValkeyCache.set (self : ValkeyCache) (ser : Except CacheErr String)
    (setexResp : Except CacheErr Unit) : Except CacheErr Unit :=
  match self.pool with
  | Option.none => .ok ()
  | some _ =>
    match setTryBlock ser setexResp with
    | .ok _ => .ok ()
    | .error _ => .ok ()

/-! ## The memoizing decorator's wrapper -/

/-- Decidable equality for `Except` outcomes (not provided by core). -/
instance exceptDecEq {ε α : Type} [DecidableEq ε] [DecidableEq α] :
    DecidableEq (Except ε α) := fun x y =>
  match x, y with
  | .ok a, .ok b =>
    if h : a = b then isTrue (by rw [h]) else isFalse (fun hh => h (by cases hh; rfl))
  | .error a, .error b =>
    if h : a = b then isTrue (by rw [h]) else isFalse (fun hh => h (by cases hh; rfl))
  | .ok _, .error _ => isFalse nofun
  | .error _, .ok _ => isFalse nofun

/-- The result envelope built by the wrapper. -/
structure Envelope where
  data : PyValue
  cache_hit : Bool
  cache_time_ms : ℚ
  source : String
deriving DecidableEq

/-- A Python exception escaping the wrapper. -/
inductive PyErr where
  | runtimeError (msg : String)
  | cache (e : CacheErr)
deriving DecidableEq

/-- One wrapper call's observable outcome: the returned envelope (or the
exception the call raised), and the fire-and-forget `cache.set` task it
spawned (key, value, ttl), if any. -/
structure WrapperOutcome where
  result : Except PyErr Envelope
  pendingSet : Option (String × PyValue × Nat)
deriving DecidableEq

/-- `key_prefix or func.__name__`: Python `or` falls back on falsy values,
so both `None` and the empty string yield the function name. -/
def effectivePre (keyPre : Option String) (funcName : String) : String :=
  match keyPre with
  | Option.none => funcName
  | some s => if s = "" then funcName else s

/-- One call of the wrapper produced by `valkey_cache(ttl, key_prefix)`
applied to `f`. `gcache` is the module-level `_valkey_cache` singleton
(`get_valkey_cache` raises when it is `None`); `getResp` is the backend's
response to this call's cache probe; `f` is the wrapped computation
(modelled as a pure function of the call arguments); `t` is the measured
`cache_time_ms`. The cache write on a miss is spawned with
`asyncio.create_task` and not awaited, so it is returned as `pendingSet`
rather than applied. -/
def wrapperCall (gcache : Option ValkeyCache) (getResp : Except CacheErr (Option String))
    (ttl : Nat) (keyPre : Option String) (funcName : String)
    (f : List PyValue → List (String × PyValue) → PyValue)
    (args : List PyValue) (kwargs : List (String × PyValue)) (t : ℚ) : WrapperOutcome :=
  match gcache with
  | Option.none =>
    ⟨.error (.runtimeError "Valkey cache not initialized. Call init_valkey_cache() first."),
      Option.none⟩
  | some cache =>
    let pre := effectivePre keyPre funcName
    let cache_key := generate_cache_key pre args kwargs
    match ValkeyCache.get cache getResp with
    | .error e => ⟨.error (.cache e), Option.none⟩
    | .ok cached_result =>
      if cached_result ≠ PyValue.none then
        ⟨.ok ⟨cached_result, true, t, "valkey"⟩, Option.none⟩
      else
        let result := f args kwargs
        ⟨.ok ⟨result, false, t, "duckdb"⟩, some (cache_key, result, ttl)⟩

/-- The backend's key-value store (key → stored bytes of live entries). -/
abbrev Store := List (String × String)

/-- The backend response a live, reachable server holding `σ` gives to a
`get` for `key`. -/
def storeResp (σ : Store) (key : String) : Except CacheErr (Option String) :=
  .ok (List.lookup key σ)

/-- A wrapper call against a live, reachable backend holding `σ`. -/
def wrapperCallStore (gcache : Option ValkeyCache) (σ : Store)
    (ttl : Nat) (keyPre : Option String) (funcName : String)
    (f : List PyValue → List (String × PyValue) → PyValue)
    (args : List PyValue) (kwargs : List (String × PyValue)) (t : ℚ) : WrapperOutcome :=
  wrapperCall gcache
    (storeResp σ (generate_cache_key (effectivePre keyPre funcName) args kwargs))
    ttl keyPre funcName f args kwargs t

/-- The store after the fire-and-forget `cache.set` task of a previous call
completes against a live server holding `σ`: `SETEX` overwrites the key.
(The TTL only fixes the expiry instant; the claims under proof stay inside
the TTL window, so expiry is not tracked.) With no pool, `set` is a no-op;
if `orjson.dumps` raises (value outside orjson's range), `set` catches the
exception and nothing is stored. -/
def applyPendingSet (gcache : Option ValkeyCache) (σ : Store) :
    Option (String × PyValue × Nat) → Store
  | Option.none => σ
  | some (k, v, _) =>
    match gcache with
    | Option.none => σ
    | some cache =>
      match cache.pool with
      | Option.none => σ
      | some _ =>
        match orjsonDumps v with
        | some s => (k, s) :: σ
        | Option.none => σ

/-! ## DuckDBConnectionPool

The pool's queue (`queue.Queue`) is a FIFO buffer of connection handles,
embedded as a list whose head is the next handle handed out; `put` appends
at the tail. Sequential semantics: within one scoped acquisition no other
task releases a handle, so `Queue.get(timeout=5.0)` on an empty queue waits
out the timeout and raises `Empty`, which `_get_connection` converts to a
`RuntimeError`. -/

namespace DuckDBConnectionPool

/-- The bounded wait passed to `Queue.get` (`timeout=5.0`), in seconds. -/
def acquireTimeoutSeconds : ℚ := 5

/-- The message of the pool-exhausted `RuntimeError`. -/
def exhaustedMsg : String := "Connection pool exhausted - no connections available"

/-- `_get_connection`: take the next available handle, or raise after the
bounded wait. -/
def getConnection {H : Type} (q : List H) : Except String (H × List H) :=
  match q with
  | [] => .error exhaustedMsg
  | h :: t => .ok (h, t)

/-- `_return_connection`: `Queue.put` appends the handle at the tail. -/
def returnConnection {H : Type} (q : List H) (h : H) : List H := q ++ [h]

/-- The `connection()` async context manager: acquire, run the body, and
return the handle in the `finally` block — also when the body raises. The
result is the body's outcome (or the acquisition error) together with the
pool queue afterwards. -/
def connection {H E A : Type} (body : H → Except E A) (q : List H) :
    Except (String ⊕ E) A × List H :=
  match getConnection q with
  | .error e => (.error (.inl e), q)
  | .ok (h, t) =>
    match body h with
    | .ok a => (.ok a, returnConnection t h)
    | .error e => (.error (.inr e), returnConnection t h)

/-- A sequence of scoped acquisitions run one after the other, each body
either returning or raising; yields the final pool queue. -/
def runScoped {H E A : Type} (bodies : List (H → Except E A)) (q : List H) : List H :=
  bodies.foldl (fun σ b => (connection b σ).2) q

/-- `_initialize_pool`: create `size` connections with the factory; a
factory failure propagates out of the constructor. Extension loading
(`extLoad`) runs inside its own `try/except` and its outcome is discarded;
the connection is put into the pool either way. Returns the initial queue. -/
def initializePool {H : Type} (factory : Nat → Except String H)
    (extLoad : Nat → Except String Unit) : Nat → Nat → List H → Except String (List H)
  | _, 0, acc => .ok acc
  | i, n + 1, acc =>
    match factory i with
    | .error e => .error e
    | .ok conn =>
      match extLoad i with
      | .ok _ => initializePool factory extLoad (i + 1) n (acc ++ [conn])
      | .error _ => initializePool factory extLoad (i + 1) n (acc ++ [conn])

end DuckDBConnectionPool

/-! ## PostgresPool.init_pool

The retry loop: up to `max_retries = 5` attempts, each of which first runs
`self._pool = await asyncpg.create_pool(...)` — assigning `self._pool` on
creation success — and then the connection test queries, all inside the
retried `try`. A full success returns early; any raised step is caught, and
after the last failed attempt the loop logs "Database features will be
disabled" and falls through, returning normally. Because the assignment
precedes the test, a creation that succeeds leaves `self._pool` set even
when the test then fails. `create n` is the outcome of attempt `n`'s
`create_pool` call; `test n` that attempt's connection-test queries (run
only if creation succeeded). -/

namespace PostgresPool

/-- `max_retries` in `init_pool`. -/
def maxRetries : Nat := 5

/-- The retry loop body, starting at attempt `attempt` with `remaining`
attempts left and `pool` the current value of `self._pool`; returns the
final value of `self._pool`. -/
def initPoolAux {P : Type} (create : Nat → Except String P)
    (test : Nat → Except String Unit) : Nat → Nat → Option P → Option P
  | _, 0, pool => pool
  | attempt, r + 1, pool =>
    match create attempt with
    | .error _ => initPoolAux create test (attempt + 1) r pool
    | .ok p =>
      match test attempt with
      | .ok _ => some p
      | .error _ => initPoolAux create test (attempt + 1) r (some p)

/-- `init_pool`: runs the retry loop starting from `self._pool = None` and
returns normally — the `Except` layer records whether the call raises, and
it never does, because every attempt failure is caught; the payload is the
final `self._pool`. -/
def init_pool {P : Type} (create : Nat → Except String P)
    (test : Nat → Except String Unit) : Except String (Option P) :=
  .ok (initPoolAux create test 0 maxRetries Option.none)

end PostgresPool

/-! ## Sanity anchors: concrete evaluations cross-checked against the
reference implementations (xxh64 test vectors, CPython json output). -/

/-- Reference vector: xxh64 of the empty input. -/
example : xxh64 0 [] = 0xef46db3751d8e999 := by decide

/-- Reference vector: xxh64 of `"a"`. -/
example : xxh64 0 (strBytes "a") = 0xd24ec4f1a98c6e5b := by decide

/-- Reference vector: xxh64 of `"abc"`. -/
example : xxh64 0 (strBytes "abc") = 0x44bc2cf5ad770999 := by decide

/-- Reference vector exercising the 32-byte stripe loop. -/
example :
    xxh64 0 (strBytes "The quick brown fox jumps over the lazy dog") =
      0x0b242d361fda71bc := by decide

/-- Sanity: compact rendering matches orjson's output format. -/
example :
    orjsonDumps (.list [.int 1, .str "a", .none, .bool true]) =
      some "[1,\"a\",null,true]" := by
  decide

/-- Sanity: round-trips on representative concrete values. -/
example :
    (orjsonDumps (.list [.int (-3), .str "hi", .none, .bool false])).bind orjsonLoads =
      some (.list [.int (-3), .str "hi", .none, .bool false]) := by decide

/-- Sanity: a stored Python `None` is the JSON document `null`, which
deserializes back to `None`. -/
example : orjsonDumps .none = some "null" ∧ orjsonLoads "null" = some PyValue.none := by
  decide

/-- Sanity: orjson's 64-bit integer range — `2^64 - 1` and `-2^63` serialize,
`2^64` and `-2^63 - 1` raise `TypeError` (also nested in a list). -/
example :
    orjsonDumps (.int (2 ^ 64 - 1)) = some "18446744073709551615" ∧
    orjsonDumps (.int (-(2 ^ 63))) = some "-9223372036854775808" ∧
    orjsonDumps (.int (2 ^ 64)) = Option.none ∧
    orjsonDumps (.int (-(2 ^ 63) - 1)) = Option.none ∧
    orjsonDumps (.list [.int 1, .int (2 ^ 64)]) = Option.none := by
  decide

/-- Sanity: the serialized `key_string` matches CPython's output byte for
byte on a representative call. -/
example :
    keyString [.int 1, .int 2] [("b", .int 2), ("a", .int 1)] =
      "\x7b\"args\": [1, 2], \"kwargs\": [[\"a\", 1], [\"b\", 2]]\x7d" := by decide

/-- Sanity: full derived keys match the reference implementation
(CPython `json.dumps` + reference xxh64). -/
example :
    generate_cache_key "f" [.int 1, .int 2] [("b", .int 2), ("a", .int 1)] =
      "f:f9986293c7a2f614" := by decide

example : generate_cache_key "f" [.int 1] [] = "f:92f8dcca9a234d41" := by decide

example : generate_cache_key "f" [.int 2] [] = "f:85988191358d4149" := by decide

example : generate_cache_key "g" [.int 1] [] = "g:92f8dcca9a234d41" := by decide

/-- Sanity: miss → compute → envelope with `source = "duckdb"` and a spawned
write task. -/
example :
    wrapperCallStore (some ⟨some ()⟩) [] 300 Option.none "f"
        (fun _ _ => .int 7) [.int 1] [] 0 =
      ⟨.ok ⟨.int 7, false, 0, "duckdb"⟩,
        some ("f:92f8dcca9a234d41", .int 7, 300)⟩ := by
  decide

/-- Sanity: a first-attempt full success initializes the pool. -/
example :
    PostgresPool.init_pool (fun _ => .ok 42) (fun _ => .ok ()) = .ok (some 42) := by
  decide

/-- Sanity: five failed creations end with a normal return and no pool. -/
example :
    PostgresPool.init_pool (P := Nat) (fun _ => .error "refused") (fun _ => .ok ()) =
      .ok Option.none := by
  decide

/-- Sanity: a successful creation followed by five failed connection tests
leaves the pool assigned (the source sets `self._pool` before the test). -/
example :
    PostgresPool.init_pool (P := Nat) (fun _ => .ok 42) (fun _ => .error "no table") =
      .ok (some 42) := by
  decide

/-! ## Helper lemmas -/

theorem charListLe_total : ∀ as bs : List Char,
    charListLe as bs = true ∨ charListLe bs as = true
  | [], _ => .inl rfl
  | _ :: _, [] => .inr rfl
  | a :: as, b :: bs => by
    by_cases hab : a = b
    · subst hab
      rcases charListLe_total as bs with h | h
      · exact .inl (by simpa [charListLe] using h)
      · exact .inr (by simpa [charListLe] using h)
    · have hba : b ≠ a := fun h => hab h.symm
      have hne : a.toNat ≠ b.toNat := fun h =>
        hab (by rw [← Char.ofNat_toNat a, ← Char.ofNat_toNat b, h])
      rcases Nat.lt_or_ge a.toNat b.toNat with h | h
      · exact .inl (by simp [charListLe, hab, h])
      · have hlt : b.toNat < a.toNat := lt_of_le_of_ne h (fun hh => hne hh.symm)
        exact .inr (by simp [charListLe, hba, hlt])

theorem charListLe_trans : ∀ as bs cs : List Char,
    charListLe as bs = true → charListLe bs cs = true → charListLe as cs = true
  | [], _, _, _, _ => rfl
  | _ :: _, [], _, h1, _ => by simp [charListLe] at h1
  | _ :: _, _ :: _, [], _, h2 => by simp [charListLe] at h2
  | a :: as, b :: bs, c :: cs, h1, h2 => by
    by_cases hab : a = b <;> by_cases hbc : b = c
    · subst hab; subst hbc
      simp only [charListLe, if_pos rfl] at h1 h2 ⊢
      exact charListLe_trans as bs cs h1 h2
    · subst hab
      simpa [charListLe, hbc] using h2
    · subst hbc
      simpa [charListLe, hab] using h1
    · simp only [charListLe, if_neg hab, if_neg hbc, decide_eq_true_eq] at h1 h2
      have hac : a.toNat ≠ c.toNat := fun h => absurd (h ▸ h1) (Nat.lt_asymm h2)
      have haceq : a ≠ c := fun h => hac (by rw [h])
      simp only [charListLe, if_neg haceq, decide_eq_true_eq]
      exact Nat.lt_trans h1 h2

theorem charListLe_antisymm : ∀ as bs : List Char,
    charListLe as bs = true → charListLe bs as = true → as = bs
  | [], [], _, _ => rfl
  | [], _ :: _, _, h2 => by simp [charListLe] at h2
  | _ :: _, [], h1, _ => by simp [charListLe] at h1
  | a :: as, b :: bs, h1, h2 => by
    by_cases hab : a = b
    · subst hab
      simp only [charListLe, if_pos rfl] at h1 h2
      exact congrArg (a :: ·) (charListLe_antisymm as bs h1 h2)
    · have hba : b ≠ a := fun h => hab h.symm
      simp only [charListLe, if_neg hab, if_neg hba, decide_eq_true_eq] at h1 h2
      exact absurd h1 (Nat.lt_asymm h2)

theorem strLe_total (s t : String) : strLe s t = true ∨ strLe t s = true :=
  charListLe_total s.data t.data

theorem strLe_trans {s t u : String} (h1 : strLe s t = true) (h2 : strLe t u = true) :
    strLe s u = true :=
  charListLe_trans s.data t.data u.data h1 h2

theorem strLe_antisymm {s t : String} (h1 : strLe s t = true) (h2 : strLe t s = true) :
    s = t := by
  cases s with
  | mk d1 =>
    cases t with
    | mk d2 => exact congrArg String.mk (charListLe_antisymm d1 d2 h1 h2)

/-- `sortKwargs` permutes its input (it is a sort). -/
theorem sortKwargs_perm (k : List (String × PyValue)) : (sortKwargs k).Perm k :=
  List.perm_insertionSort kwLe k

/-- `sortKwargs` output is sorted by keyword name. -/
theorem sortKwargs_sorted (k : List (String × PyValue)) :
    (sortKwargs k).Sorted kwLe := by
  have tot : IsTotal (String × PyValue) kwLe := ⟨fun a b => strLe_total a.1 b.1⟩
  have tr : IsTrans (String × PyValue) kwLe := ⟨fun _ _ _ h1 h2 => strLe_trans h1 h2⟩
  exact List.sorted_insertionSort kwLe k

/-- Canonicality: permuting keyword arguments with pairwise-distinct names
does not change the sorted item list. -/
theorem sortKwargs_perm_eq (k₁ k₂ : List (String × PyValue))
    (hnd : (k₁.map Prod.fst).Nodup) (hp : k₁.Perm k₂) :
    sortKwargs k₁ = sortKwargs k₂ := by
  have anti : IsAntisymm (String × PyValue) (fun p q => kwLe p q ∧ p.1 ≠ q.1) :=
    ⟨fun p q h1 h2 => absurd (strLe_antisymm h1.1 h2.1) h1.2⟩
  have hp' : (sortKwargs k₁).Perm (sortKwargs k₂) :=
    (sortKwargs_perm k₁).trans (hp.trans (sortKwargs_perm k₂).symm)
  have hnd₁ : ((sortKwargs k₁).map Prod.fst).Nodup :=
    (((sortKwargs_perm k₁).map Prod.fst).nodup_iff).mpr hnd
  have hnd₂ : ((sortKwargs k₂).map Prod.fst).Nodup :=
    ((hp'.map Prod.fst).nodup_iff).mp hnd₁
  have hs₁ : (sortKwargs k₁).Pairwise (fun p q => kwLe p q ∧ p.1 ≠ q.1) :=
    (sortKwargs_sorted k₁).and (List.pairwise_map.mp hnd₁)
  have hs₂ : (sortKwargs k₂).Pairwise (fun p q => kwLe p q ∧ p.1 ≠ q.1) :=
    (sortKwargs_sorted k₂).and (List.pairwise_map.mp hnd₂)
  exact List.eq_of_perm_of_sorted hp' hs₁ hs₂

/-- `ValkeyCache.get` never lets an exception escape: every outcome is `ok`. -/
theorem get_isOk (c : ValkeyCache) (resp : Except CacheErr (Option String)) :
    ∃ v, ValkeyCache.get c resp = .ok v := by
  unfold ValkeyCache.get
  cases c.pool with
  | none => exact ⟨.none, rfl⟩
  | some u =>
    cases getTryBlock resp with
    | ok v => exact ⟨v, rfl⟩
    | error e => exact ⟨.none, rfl⟩

/-- `ValkeyCache.set` never lets an exception escape. -/
theorem set_isOk (c : ValkeyCache) (ser : Except CacheErr String)
    (setex : Except CacheErr Unit) : ValkeyCache.set c ser setex = .ok () := by
  unfold ValkeyCache.set
  cases c.pool with
  | none => rfl
  | some u =>
    cases setTryBlock ser setex with
    | ok v => rfl
    | error e => rfl

theorem getTryBlock_err (e : CacheErr) : getTryBlock (.error e) = .error e := rfl

theorem getTryBlock_absent : getTryBlock (.ok Option.none) = .ok PyValue.none := rfl

theorem getTryBlock_present {s : String} {v : PyValue} (hs : ¬s = "")
    (hv : orjsonLoads s = some v) : getTryBlock (.ok (some s)) = .ok v := by
  show (if s = "" then pure PyValue.none
    else match orjsonLoads s with
      | some v => pure v
      | Option.none => throw CacheErr.deserialize : Except CacheErr PyValue) = .ok v
  rw [if_neg hs, hv]
  rfl

/-- A probe whose payload deserializes to `v` yields `v`. -/
theorem get_present {c : ValkeyCache} {u : Unit} (hp : c.pool = some u)
    {s : String} {v : PyValue} (hs : ¬s = "") (hv : orjsonLoads s = some v) :
    ValkeyCache.get c (.ok (some s)) = .ok v := by
  unfold ValkeyCache.get
  rw [hp, getTryBlock_present hs hv]

/-- A probe for an absent key yields `None`. -/
theorem get_absent (c : ValkeyCache) :
    ValkeyCache.get c (.ok Option.none) = .ok PyValue.none := by
  unfold ValkeyCache.get
  cases c.pool with
  | none => rfl
  | some u => rw [getTryBlock_absent]

/-- A hit path of the wrapper: backend returns a payload that deserializes
to a non-`None` value. -/
theorem wrapperCall_hit (c : ValkeyCache) {u : Unit} (hp : c.pool = some u)
    {s : String} {v : PyValue} (hs : ¬s = "") (hv : orjsonLoads s = some v)
    (hnn : v ≠ PyValue.none) (ttl : Nat) (kp : Option String) (fn : String)
    (f : List PyValue → List (String × PyValue) → PyValue)
    (args : List PyValue) (kwargs : List (String × PyValue)) (t : ℚ) :
    wrapperCall (some c) (.ok (some s)) ttl kp fn f args kwargs t =
      ⟨.ok ⟨v, true, t, "valkey"⟩, Option.none⟩ := by
  simp only [wrapperCall]
  rw [get_present hp hs hv]
  simp [hnn]

/-- A miss path of the wrapper: the cache probe produced `None` (key absent,
stored null, or pool absent — any response when the pool is gone). -/
theorem wrapperCall_miss (c : ValkeyCache)
    (getResp : Except CacheErr (Option String))
    (hmiss : ValkeyCache.get c getResp = .ok PyValue.none)
    (ttl : Nat) (kp : Option String) (fn : String)
    (f : List PyValue → List (String × PyValue) → PyValue)
    (args : List PyValue) (kwargs : List (String × PyValue)) (t : ℚ) :
    wrapperCall (some c) getResp ttl kp fn f args kwargs t =
      ⟨.ok ⟨f args kwargs, false, t, "duckdb"⟩,
        some (generate_cache_key (effectivePre kp fn) args kwargs, f args kwargs, ttl)⟩ := by
  simp only [wrapperCall]
  rw [hmiss]
  simp

/-- With an absent pool every probe yields `None`. -/
theorem get_noPool (resp : Except CacheErr (Option String)) :
    ValkeyCache.get ⟨Option.none⟩ resp = .ok PyValue.none := rfl

/-- With a live pool and a raising backend, the probe still yields `None`. -/
theorem get_backendError (c : ValkeyCache) (e : CacheErr) :
    ValkeyCache.get c (.error e) = .ok PyValue.none := by
  unfold ValkeyCache.get
  cases c.pool with
  | none => rfl
  | some u => rw [getTryBlock_err]

/-- Fixed width of the hex rendering. -/
theorem hexChars_length : ∀ (w n : Nat), (hexChars w n).length = w
  | 0, _ => rfl
  | w + 1, n => by
    simp [hexChars, hexChars_length w]

/-- Every rendered character is a lowercase hex digit. -/
theorem hexChars_mem : ∀ (w n : Nat), ∀ ch ∈ hexChars w n, ch ∈ hexAlphabet
  | 0, _ => by simp [hexChars]
  | w + 1, n => by
    have hlt : n % 16 < 16 := Nat.mod_lt _ (by decide)
    have hdig : ∀ m, m < 16 → hexDigit m ∈ hexAlphabet := by decide
    intro ch hch
    have hch2 : ch ∈ hexChars w (n / 16) ∨ ch = hexDigit (n % 16) := by
      simpa [hexChars] using hch
    rcases hch2 with h | rfl
    · exact hexChars_mem w (n / 16) ch h
    · exact hdig _ hlt

/-- The queue after a scoped acquisition holds the same handles as before:
the acquired handle is returned exactly once, whether the body returns or
raises, and on an exhausted pool the queue is untouched. -/
theorem connection_queue_perm {H E A : Type} (body : H → Except E A) (q : List H) :
    ((DuckDBConnectionPool.connection body q).2).Perm q := by
  cases q with
  | nil => simp [DuckDBConnectionPool.connection, DuckDBConnectionPool.getConnection]
  | cons h t =>
    simp only [DuckDBConnectionPool.connection, DuckDBConnectionPool.getConnection,
      DuckDBConnectionPool.returnConnection]
    cases body h with
    | ok a => exact List.perm_append_singleton h t
    | error e => exact List.perm_append_singleton h t

/-- Iterating scoped acquisitions preserves the handles in circulation. -/
theorem runScoped_perm {H E A : Type} (bodies : List (H → Except E A)) (q : List H) :
    (DuckDBConnectionPool.runScoped bodies q).Perm q := by
  induction bodies generalizing q with
  | nil => exact List.Perm.refl q
  | cons b bs ih =>
    exact (ih _).trans (connection_queue_perm b q)

/-- `_initialize_pool` accounting: a normal return delivers exactly the
requested number of fresh handles appended to the accumulator, and every
factory call in the covered range succeeded. -/
theorem initializePool_ok {H : Type} (factory : Nat → Except String H)
    (ext : Nat → Except String Unit) :
    ∀ (size i : Nat) (acc l : List H),
      DuckDBConnectionPool.initializePool factory ext i size acc = .ok l →
        l.length = acc.length + size ∧
        ∀ j, i ≤ j → j < i + size → ∃ h, factory j = .ok h := by
  intro size
  induction size with
  | zero =>
    intro i acc l hl
    cases hl
    exact ⟨rfl, fun j h1 h2 => absurd h2 (by omega)⟩
  | succ n ih =>
    intro i acc l hl
    unfold DuckDBConnectionPool.initializePool at hl
    cases hf : factory i with
    | error e => rw [hf] at hl; cases hl
    | ok conn =>
      rw [hf] at hl
      have step : DuckDBConnectionPool.initializePool factory ext (i + 1) n
          (acc ++ [conn]) = .ok l := by
        cases he : ext i with
        | ok u => rw [he] at hl; exact hl
        | error e => rw [he] at hl; exact hl
      rcases ih (i + 1) (acc ++ [conn]) l step with ⟨hlen, hfac⟩
      constructor
      · simp only [List.length_append, List.length_singleton] at hlen
        omega
      · intro j h1 h2
        rcases Nat.eq_or_lt_of_le h1 with rfl | hlt
        · exact ⟨conn, hf⟩
        · exact hfac j hlt (by omega)

/-- With no pool object on the cache, every probe yields `None`. -/
theorem get_poolAbsent {c : ValkeyCache} (hp : c.pool = Option.none)
    (resp : Except CacheErr (Option String)) :
    ValkeyCache.get c resp = .ok PyValue.none := by
  unfold ValkeyCache.get
  rw [hp]

/-- The retry loop leaves `self._pool` untouched when every `create_pool`
call it makes fails (the test stage never runs). -/
theorem initPoolAux_createAllFail {P : Type} (create : Nat → Except String P)
    (test : Nat → Except String Unit) :
    ∀ (r a : Nat) (pool : Option P),
      (∀ n, n < r → ∃ e, create (a + n) = .error e) →
      PostgresPool.initPoolAux create test a r pool = pool
  | 0, _, _, _ => rfl
  | r + 1, a, pool, hf => by
    unfold PostgresPool.initPoolAux
    obtain ⟨e, he⟩ := hf 0 (Nat.succ_pos r)
    rw [Nat.add_zero] at he
    rw [he]
    refine initPoolAux_createAllFail create test r (a + 1) pool (fun n hn => ?_)
    have h2 : a + 1 + n = a + (n + 1) := by omega
    rw [h2]
    exact hf (n + 1) (by omega)

/-- Once `self._pool` has been assigned, the retry loop never clears it:
every later attempt either keeps it or overwrites it with a new pool. -/
theorem initPoolAux_keepsSome {P : Type} (create : Nat → Except String P)
    (test : Nat → Except String Unit) :
    ∀ (r a : Nat) (p : P),
      ∃ q, PostgresPool.initPoolAux create test a r (some p) = some q
  | 0, _, p => ⟨p, rfl⟩
  | r + 1, a, p => by
    unfold PostgresPool.initPoolAux
    cases create a with
    | error e => exact initPoolAux_keepsSome create test r (a + 1) p
    | ok q =>
      cases test a with
      | ok u => exact ⟨q, rfl⟩
      | error e => exact initPoolAux_keepsSome create test r (a + 1) q

/-! ## The claims -/

/-- C1 counterexample: with the global `ValkeyCache` singleton never
initialized, a wrapper call raises `RuntimeError` instead of degrading to a
cache miss — refuting "never raises an exception due to the missing
backend". -/
theorem C1_counterexample :
    (wrapperCall Option.none (.ok Option.none) 300 Option.none "f"
        (fun _ _ => .int 7) [] [] 0).result =
      .error (.runtimeError
        "Valkey cache not initialized. Call init_valkey_cache() first.") := by
  decide

/-- C1 (amended): if the singleton exists but its connection pool is absent
(`_pool is None`), every call behaves as a cache miss — it computes and
returns `f`'s result without raising, and the spawned cache write is a
no-op; if instead the singleton was never initialized, the wrapper raises
`RuntimeError` from `get_valkey_cache`. -/
theorem C1_degraded_mode :
    (∀ (getResp : Except CacheErr (Option String)) (ttl : Nat) (kp : Option String)
        (fn : String) (f : List PyValue → List (String × PyValue) → PyValue)
        (args : List PyValue) (kwargs : List (String × PyValue)) (t : ℚ),
        wrapperCall (some ⟨Option.none⟩) getResp ttl kp fn f args kwargs t =
          ⟨.ok ⟨f args kwargs, false, t, "duckdb"⟩,
            some (generate_cache_key (effectivePre kp fn) args kwargs,
              f args kwargs, ttl)⟩) ∧
    (∀ (σ : Store) (p : Option (String × PyValue × Nat)),
        applyPendingSet (some ⟨Option.none⟩) σ p = σ) ∧
    (∀ (getResp : Except CacheErr (Option String)) (ttl : Nat) (kp : Option String)
        (fn : String) (f : List PyValue → List (String × PyValue) → PyValue)
        (args : List PyValue) (kwargs : List (String × PyValue)) (t : ℚ),
        (wrapperCall Option.none getResp ttl kp fn f args kwargs t).result =
          .error (.runtimeError
            "Valkey cache not initialized. Call init_valkey_cache() first.")) := by
  refine ⟨?_, ?_, ?_⟩
  · intro getResp ttl kp fn f args kwargs t
    exact wrapperCall_miss _ _ (get_poolAbsent rfl getResp) ttl kp fn f args kwargs t
  · intro σ p
    rcases p with _ | ⟨k, v, ttl⟩ <;> rfl
  · intro getResp ttl kp fn f args kwargs t
    rfl

/-- C2: a scoped acquisition returns the acquired handle to the pool exactly
once — also when the body raises — so the handles in circulation are
preserved (no duplication, no loss) across any sequence of scoped uses. -/
theorem C2_scoped_release {H E A : Type} :
    (∀ (q : List H) (body : H → Except E A),
        ((DuckDBConnectionPool.connection body q).2).Perm q) ∧
    (∀ (h : H) (t : List H) (a : A),
        (DuckDBConnectionPool.connection (fun _ => (.ok a : Except E A)) (h :: t)).2 =
          t ++ [h]) ∧
    (∀ (h : H) (t : List H) (e : E),
        (DuckDBConnectionPool.connection (fun _ => (.error e : Except E A)) (h :: t)).2 =
          t ++ [h]) ∧
    (∀ (bodies : List (H → Except E A)) (q : List H),
        (DuckDBConnectionPool.runScoped bodies q).Perm q ∧
        (DuckDBConnectionPool.runScoped bodies q).length = q.length) :=
  ⟨fun q body => connection_queue_perm body q, fun _ _ _ => rfl, fun _ _ _ => rfl,
    fun bodies q => ⟨runScoped_perm bodies q, (runScoped_perm bodies q).length_eq⟩⟩

/-- C3 counterexample: for `f` returning `None`, the second call after the
completed cache write still reports `cache_hit = false` — refuting the
claim's "cache_hit=True on the second call" for every memoized function. -/
theorem C3_counterexample :
    (wrapperCallStore (some ⟨some ()⟩)
        (applyPendingSet (some ⟨some ()⟩) []
          (wrapperCallStore (some ⟨some ()⟩) [] 300 Option.none "f"
            (fun _ _ => PyValue.none) [] [] 0).pendingSet)
        300 Option.none "f" (fun _ _ => PyValue.none) [] [] 0).result =
      .ok ⟨.none, false, 0, "duckdb"⟩ := by
  decide

/-- C3 (amended): against a live backend, with the key fresh, the first
call is a miss and — provided the result is orjson-serializable and its
serialize/deserialize round-trip is faithful and not `None` — once its
write lands, the second call is a hit; both calls' `data` equal the
computed result (the hit's `data` being the deserialized stored copy). If
instead serialization raises (an integer outside orjson's 64-bit range),
`cache.set` swallows the error, nothing is stored, and the second call is
again a miss that re-computes; results that round-trip to `None` (in
particular `f` returning `None`) are likewise re-computed on every call. -/
theorem C3_memoize_roundtrip :
    ∀ (c : ValkeyCache) (u : Unit) (σ : Store) (ttl : Nat) (kp : Option String)
      (fn : String) (f : List PyValue → List (String × PyValue) → PyValue)
      (args : List PyValue) (kwargs : List (String × PyValue)) (t₁ t₂ : ℚ),
      c.pool = some u →
      List.lookup (generate_cache_key (effectivePre kp fn) args kwargs) σ =
        Option.none →
      (∀ ser : String, orjsonDumps (f args kwargs) = some ser →
        orjsonLoads ser = some (f args kwargs) →
        f args kwargs ≠ PyValue.none →
        (wrapperCallStore (some c) σ ttl kp fn f args kwargs t₁).result =
            .ok ⟨f args kwargs, false, t₁, "duckdb"⟩ ∧
        (wrapperCallStore (some c)
            (applyPendingSet (some c) σ
              (wrapperCallStore (some c) σ ttl kp fn f args kwargs t₁).pendingSet)
            ttl kp fn f args kwargs t₂).result =
          .ok ⟨f args kwargs, true, t₂, "valkey"⟩) ∧
      (orjsonDumps (f args kwargs) = Option.none →
        (wrapperCallStore (some c) σ ttl kp fn f args kwargs t₁).result =
            .ok ⟨f args kwargs, false, t₁, "duckdb"⟩ ∧
        (wrapperCallStore (some c)
            (applyPendingSet (some c) σ
              (wrapperCallStore (some c) σ ttl kp fn f args kwargs t₁).pendingSet)
            ttl kp fn f args kwargs t₂).result =
          .ok ⟨f args kwargs, false, t₂, "duckdb"⟩) := by
  intro c u σ ttl kp fn f args kwargs t₁ t₂ hp hlk
  have hresp : storeResp σ (generate_cache_key (effectivePre kp fn) args kwargs) =
      .ok Option.none := by
    simp [storeResp, hlk]
  have hcall₁ : wrapperCallStore (some c) σ ttl kp fn f args kwargs t₁ =
      ⟨.ok ⟨f args kwargs, false, t₁, "duckdb"⟩,
        some (generate_cache_key (effectivePre kp fn) args kwargs,
          f args kwargs, ttl)⟩ := by
    show wrapperCall (some c) _ ttl kp fn f args kwargs t₁ = _
    rw [hresp]
    exact wrapperCall_miss c _ (get_absent c) ttl kp fn f args kwargs t₁
  constructor
  · intro ser hser hrt hnn
    refine ⟨by rw [hcall₁], ?_⟩
    rw [hcall₁]
    have hσ' : applyPendingSet (some c) σ
        (some (generate_cache_key (effectivePre kp fn) args kwargs,
          f args kwargs, ttl)) =
        (generate_cache_key (effectivePre kp fn) args kwargs, ser) :: σ := by
      simp [applyPendingSet, hp, hser]
    rw [hσ']
    have hs : ¬ser = "" := by
      intro h
      rw [h] at hrt
      have h0 : (Option.none : Option PyValue) = some (f args kwargs) := hrt
      cases h0
    have hresp₂ : storeResp
        ((generate_cache_key (effectivePre kp fn) args kwargs, ser) :: σ)
        (generate_cache_key (effectivePre kp fn) args kwargs) =
        .ok (some ser) := by
      simp [storeResp, List.lookup]
    have hcall₂ : wrapperCallStore (some c)
        ((generate_cache_key (effectivePre kp fn) args kwargs, ser) :: σ)
        ttl kp fn f args kwargs t₂ =
        ⟨.ok ⟨f args kwargs, true, t₂, "valkey"⟩, Option.none⟩ := by
      show wrapperCall (some c) _ ttl kp fn f args kwargs t₂ = _
      rw [hresp₂]
      exact wrapperCall_hit c hp hs hrt hnn ttl kp fn f args kwargs t₂
    rw [hcall₂]
  · intro hser
    refine ⟨by rw [hcall₁], ?_⟩
    rw [hcall₁]
    have hσ' : applyPendingSet (some c) σ
        (some (generate_cache_key (effectivePre kp fn) args kwargs,
          f args kwargs, ttl)) = σ := by
      simp [applyPendingSet, hp, hser]
    rw [hσ']
    have hcall₂ : wrapperCallStore (some c) σ ttl kp fn f args kwargs t₂ =
        ⟨.ok ⟨f args kwargs, false, t₂, "duckdb"⟩,
          some (generate_cache_key (effectivePre kp fn) args kwargs,
            f args kwargs, ttl)⟩ := by
      show wrapperCall (some c) _ ttl kp fn f args kwargs t₂ = _
      rw [hresp]
      exact wrapperCall_miss c _ (get_absent c) ttl kp fn f args kwargs t₂
    rw [hcall₂]

/-- C3 witness: the amended behaviour at concrete calls — `f` returning 42
(serializes, second call hits) and `f` returning `2^64` (orjson rejects it,
nothing is stored, second call misses). -/
theorem C3_memoize_roundtrip_witness :
    ((wrapperCallStore (some ⟨some ()⟩) [] 300 Option.none "f"
        (fun _ _ => .int 42) [] [] 0).result = .ok ⟨.int 42, false, 0, "duckdb"⟩ ∧
      (wrapperCallStore (some ⟨some ()⟩)
          (applyPendingSet (some ⟨some ()⟩) []
            (wrapperCallStore (some ⟨some ()⟩) [] 300 Option.none "f"
              (fun _ _ => .int 42) [] [] 0).pendingSet)
          300 Option.none "f" (fun _ _ => .int 42) [] [] 0).result =
        .ok ⟨.int 42, true, 0, "valkey"⟩) ∧
    ((wrapperCallStore (some ⟨some ()⟩) [] 300 Option.none "f"
        (fun _ _ => .int (2 ^ 64)) [] [] 0).result =
          .ok ⟨.int (2 ^ 64), false, 0, "duckdb"⟩ ∧
      (wrapperCallStore (some ⟨some ()⟩)
          (applyPendingSet (some ⟨some ()⟩) []
            (wrapperCallStore (some ⟨some ()⟩) [] 300 Option.none "f"
              (fun _ _ => .int (2 ^ 64)) [] [] 0).pendingSet)
          300 Option.none "f" (fun _ _ => .int (2 ^ 64)) [] [] 0).result =
        .ok ⟨.int (2 ^ 64), false, 0, "duckdb"⟩) :=
  ⟨(C3_memoize_roundtrip ⟨some ()⟩ () [] 300 Option.none "f" (fun _ _ => .int 42)
      [] [] 0 0 rfl (by decide)).1 "42" (by decide) (by decide) (by decide),
    (C3_memoize_roundtrip ⟨some ()⟩ () [] 300 Option.none "f"
      (fun _ _ => .int (2 ^ 64)) [] [] 0 0 rfl (by decide)).2 (by decide)⟩

/-- C4 counterexample: with every creation attempt failing,
`PostgresPool.init_pool` returns normally (`ok`, no exception) with the pool
left unset — refuting "the initializer raises rather than returning
normally". -/
theorem C4_counterexample :
    PostgresPool.init_pool (P := Unit) (fun _ => .error "connection refused")
      (fun _ => .ok ()) = .ok Option.none := by
  decide

/-- C4 (amended): the DuckDB pool constructor eagerly creates all `size`
connections and propagates any creation failure (a successful return means
every factory call succeeded and exactly `size` handles exist — never a
partial pool); `PostgresPool.init_pool`, however, never raises: it makes up
to 5 attempts (assigning `self._pool` from `create_pool` before running the
connection test) and on total failure returns normally — with `self._pool`
still `None` when every creation itself failed, but left assigned to the
last created pool when a creation succeeded and only the test failed. -/
theorem C4_init_behaviour {H P : Type} :
    (∀ (factory : Nat → Except String H) (ext : Nat → Except String Unit)
        (size : Nat) (l : List H),
        DuckDBConnectionPool.initializePool factory ext 0 size [] = .ok l →
          l.length = size ∧ ∀ j, j < size → ∃ h, factory j = .ok h) ∧
    (∀ (create : Nat → Except String P) (test : Nat → Except String Unit),
        ∃ p, PostgresPool.init_pool create test = .ok p) ∧
    (∀ (create : Nat → Except String P) (test : Nat → Except String Unit),
        (∀ n, n < PostgresPool.maxRetries → ∃ e, create n = .error e) →
        PostgresPool.init_pool create test = .ok Option.none) ∧
    (∀ (create : Nat → Except String P) (test : Nat → Except String Unit) (p : P),
        create 0 = .ok p →
        (∀ n, n < PostgresPool.maxRetries → ∃ e, test n = .error e) →
        ∃ q, PostgresPool.init_pool create test = .ok (some q)) := by
  refine ⟨?_, ?_, ?_, ?_⟩
  · intro factory ext size l hl
    rcases initializePool_ok factory ext size 0 [] l hl with ⟨hlen, hfac⟩
    exact ⟨by simpa using hlen, fun j hj => hfac j (Nat.zero_le j) (by omega)⟩
  · intro create test
    exact ⟨PostgresPool.initPoolAux create test 0 PostgresPool.maxRetries
      Option.none, rfl⟩
  · intro create test hfail
    unfold PostgresPool.init_pool
    rw [initPoolAux_createAllFail create test PostgresPool.maxRetries 0
      Option.none (fun n hn => by simpa using hfail n hn)]
  · intro create test p hcr htest
    obtain ⟨e, he⟩ := htest 0 (by decide)
    have hrest : ∃ q,
        PostgresPool.initPoolAux create test 1 (PostgresPool.maxRetries - 1)
          (some p) = some q :=
      initPoolAux_keepsSome create test (PostgresPool.maxRetries - 1) 1 p
    obtain ⟨q, hq⟩ := hrest
    refine ⟨q, ?_⟩
    unfold PostgresPool.init_pool
    show Except.ok (PostgresPool.initPoolAux create test 0 (4 + 1) Option.none) = _
    unfold PostgresPool.initPoolAux
    rw [hcr, he]
    show Except.ok (PostgresPool.initPoolAux create test (0 + 1) 4 (some p)) =
      Except.ok (some q)
    exact congrArg Except.ok hq

/-- C4 witness: the amended statement applied at concrete pools — an
all-succeeding factory of size 2, a Postgres run whose creations all fail
(pool stays `None`), and one whose creations succeed but whose tests all
fail (pool ends assigned). -/
theorem C4_init_behaviour_witness :
    (([7, 7] : List Nat).length = 2 ∧
      ∀ j, j < 2 → ∃ h, (fun _ => (.ok 7 : Except String Nat)) j = .ok h) ∧
    (∃ p, PostgresPool.init_pool (P := Nat) (fun _ => .ok 7)
      (fun _ => .ok ()) = .ok p) ∧
    PostgresPool.init_pool (P := Nat) (fun _ => .error "refused")
      (fun _ => .ok ()) = .ok Option.none ∧
    (∃ q, PostgresPool.init_pool (P := Nat) (fun _ => .ok 7)
      (fun _ => .error "no table") = .ok (some q)) :=
  ⟨(C4_init_behaviour (H := Nat) (P := Nat)).1 (fun _ => .ok 7) (fun _ => .ok ())
      2 [7, 7] (by decide),
    (C4_init_behaviour (H := Nat) (P := Nat)).2.1 (fun _ => .ok 7) (fun _ => .ok ()),
    (C4_init_behaviour (H := Nat) (P := Nat)).2.2.1 (fun _ => .error "refused")
      (fun _ => .ok ()) (fun _ _ => ⟨"refused", rfl⟩),
    (C4_init_behaviour (H := Nat) (P := Nat)).2.2.2 (fun _ => .ok 7)
      (fun _ => .error "no table") 7 rfl (fun _ _ => ⟨"no table", rfl⟩)⟩

/-- C5: cache-backend behaviour never surfaces as an exception: `get`
always returns a value (`None` on any backend error), `set` always returns
normally, and a wrapper call whose cache probe raises falls through to
computing `f` and returns its result as a miss. -/
theorem C5_cache_errors_absorbed :
    (∀ (c : ValkeyCache) (resp : Except CacheErr (Option String)),
        ∃ v, ValkeyCache.get c resp = .ok v) ∧
    (∀ (c : ValkeyCache) (ser : Except CacheErr String)
        (setex : Except CacheErr Unit), ValkeyCache.set c ser setex = .ok ()) ∧
    (∀ (c : ValkeyCache) (e : CacheErr) (ttl : Nat) (kp : Option String)
        (fn : String) (f : List PyValue → List (String × PyValue) → PyValue)
        (args : List PyValue) (kwargs : List (String × PyValue)) (t : ℚ),
        wrapperCall (some c) (.error e) ttl kp fn f args kwargs t =
          ⟨.ok ⟨f args kwargs, false, t, "duckdb"⟩,
            some (generate_cache_key (effectivePre kp fn) args kwargs,
              f args kwargs, ttl)⟩) :=
  ⟨get_isOk, set_isOk, fun c e ttl kp fn f args kwargs t =>
    wrapperCall_miss c _ (get_backendError c e) ttl kp fn f args kwargs t⟩

/-- C6: `_get_connection` hands out the next available handle when one is
present, and on an empty pool fails with the pool-exhausted error after the
bounded wait, whose length is the fixed 5-second timeout passed to
`Queue.get`. -/
theorem C6_acquire_bounded_wait {H : Type} :
    DuckDBConnectionPool.acquireTimeoutSeconds = 5 ∧
    DuckDBConnectionPool.getConnection ([] : List H) =
      .error DuckDBConnectionPool.exhaustedMsg ∧
    ∀ (h : H) (t : List H), DuckDBConnectionPool.getConnection (h :: t) = .ok (h, t) :=
  ⟨rfl, rfl, fun _ _ => rfl⟩

/-- C7 counterexample: the key computed by the code differs from the key
obtained by hashing the serialized tuple (operation_name, args, sorted
kwargs) as the claim describes (same canonical serialization and hash) —
because the code's hashed payload does not contain the operation name. -/
theorem C7_counterexample :
    specDeriveKey "f" [.int 1] [] ≠ generate_cache_key "f" [.int 1] [] := by
  decide

/-- C7 (amended): the key is the operation name, a colon, and a fixed-width
16-character lowercase-hex suffix — the truncated xxh64 hexdigest of the
canonical JSON serialization of (args, kwargs sorted by name); the
operation name is only the prefix, not part of the hashed payload (the
suffix is the same for every prefix). -/
theorem C7_key_shape :
    ∀ (args : List PyValue) (kwargs : List (String × PyValue)),
      ∃ suffix : String,
        suffix.length = 16 ∧
        (∀ ch ∈ suffix.data, ch ∈ hexAlphabet) ∧
        suffix = hexDigest64 (xxh64 0 (strBytes (keyString args kwargs))) ∧
        ∀ pre : String, generate_cache_key pre args kwargs = pre ++ ":" ++ suffix := by
  intro args kwargs
  refine ⟨hexDigest64 (xxh64 0 (strBytes (keyString args kwargs))),
    hexChars_length 16 _, fun ch hch => hexChars_mem 16 _ ch hch, rfl, ?_⟩
  have htake : strTake (hexDigest64 (xxh64 0 (strBytes (keyString args kwargs)))) 16 =
      hexDigest64 (xxh64 0 (strBytes (keyString args kwargs))) := by
    unfold strTake hexDigest64
    exact congrArg String.mk (List.take_of_length_le (by rw [hexChars_length]))
  intro pre
  show pre ++ ":" ++
      strTake (hexDigest64 (xxh64 0 (strBytes (keyString args kwargs)))) 16 =
    pre ++ ":" ++ hexDigest64 (xxh64 0 (strBytes (keyString args kwargs)))
  rw [htake]

/-- C7 witness: the key shape at a concrete call. -/
theorem C7_key_shape_witness :
    generate_cache_key "f" [.int 1] [] =
      "f" ++ ":" ++ hexDigest64 (xxh64 0 (strBytes (keyString [.int 1] []))) := by
  obtain ⟨suffix, -, -, hs, hall⟩ := C7_key_shape [.int 1] []
  rw [hall "f", hs]

/-- C8 counterexample: a cache hit returns `source = "valkey"`, not the
claimed `"cache"` (and misses return `"duckdb"`, not `"computed"`). -/
theorem C8_counterexample :
    (wrapperCallStore (some ⟨some ()⟩) [("f:92f8dcca9a234d41", "1")] 300
        Option.none "f" (fun _ _ => .int 7) [.int 1] [] 0).result =
      .ok ⟨.int 1, true, 0, "valkey"⟩ ∧ "valkey" ≠ "cache" := by
  decide

/-- C8 (amended): every wrapper call (with the singleton present) returns an
envelope with fields `data`, `cache_hit`, `cache_time_ms` and `source`,
where `cache_time_ms` is the measured probe time, and `source` is
`"valkey"` on a hit and `"duckdb"` on a miss (with `data` the computed
result on a miss). -/
theorem C8_envelope_fields :
    ∀ (c : ValkeyCache) (getResp : Except CacheErr (Option String)) (ttl : Nat)
      (kp : Option String) (fn : String)
      (f : List PyValue → List (String × PyValue) → PyValue)
      (args : List PyValue) (kwargs : List (String × PyValue)) (t : ℚ),
      ∃ env : Envelope,
        (wrapperCall (some c) getResp ttl kp fn f args kwargs t).result = .ok env ∧
        env.cache_time_ms = t ∧
        ((env.cache_hit = true ∧ env.source = "valkey") ∨
          (env.cache_hit = false ∧ env.source = "duckdb" ∧
            env.data = f args kwargs)) := by
  intro c getResp ttl kp fn f args kwargs t
  obtain ⟨v, hv⟩ := get_isOk c getResp
  by_cases hnn : v = PyValue.none
  · subst hnn
    refine ⟨⟨f args kwargs, false, t, "duckdb"⟩, ?_, rfl, .inr ⟨rfl, rfl, rfl⟩⟩
    rw [wrapperCall_miss c getResp hv]
  · refine ⟨⟨v, true, t, "valkey"⟩, ?_, rfl, .inl ⟨rfl, rfl⟩⟩
    simp only [wrapperCall]
    rw [hv]
    simp [hnn]

/-- C9: key derivation is independent of keyword-argument order (concretely,
and in general for any permutation of distinctly-named keyword arguments)
and sensitive to positional-argument values. -/
theorem C9_key_determinism :
    generate_cache_key "f" [.int 1, .int 2] [("b", .int 2), ("a", .int 1)] =
      generate_cache_key "f" [.int 1, .int 2] [("a", .int 1), ("b", .int 2)] ∧
    generate_cache_key "f" [.int 1] [] ≠ generate_cache_key "f" [.int 2] [] ∧
    ∀ (pre : String) (args : List PyValue) (k₁ k₂ : List (String × PyValue)),
      (k₁.map Prod.fst).Nodup → k₁.Perm k₂ →
      generate_cache_key pre args k₁ = generate_cache_key pre args k₂ := by
  refine ⟨by decide, by decide, ?_⟩
  intro pre args k₁ k₂ hnd hp
  unfold generate_cache_key keyString
  rw [sortKwargs_perm_eq k₁ k₂ hnd hp]

/-- C9 witness: the permutation clause applied to a concrete reordering. -/
theorem C9_key_determinism_witness :
    generate_cache_key "g" [] [("a", .int 1), ("b", .int 2)] =
      generate_cache_key "g" [] [("b", .int 2), ("a", .int 1)] :=
  C9_key_determinism.2.2 "g" [] [("a", .int 1), ("b", .int 2)]
    [("b", .int 2), ("a", .int 1)] (by decide) (by decide)

/-- C10: a memoized function returning `None` never sees a cache hit: with
the key fresh, the first call misses and computes, and after its write
lands (storing the JSON `null`, indistinguishable from an absent key for
`ValkeyCache.get`), the next call still misses and re-computes. -/
theorem C10_null_never_hits :
    ∀ (c : ValkeyCache) (σ : Store) (ttl : Nat) (kp : Option String) (fn : String)
      (f : List PyValue → List (String × PyValue) → PyValue)
      (args : List PyValue) (kwargs : List (String × PyValue)) (t₁ t₂ : ℚ),
      f args kwargs = PyValue.none →
      List.lookup (generate_cache_key (effectivePre kp fn) args kwargs) σ =
        Option.none →
      (wrapperCallStore (some c) σ ttl kp fn f args kwargs t₁).result =
          .ok ⟨PyValue.none, false, t₁, "duckdb"⟩ ∧
      (wrapperCallStore (some c)
          (applyPendingSet (some c) σ
            (wrapperCallStore (some c) σ ttl kp fn f args kwargs t₁).pendingSet)
          ttl kp fn f args kwargs t₂).result =
        .ok ⟨PyValue.none, false, t₂, "duckdb"⟩ := by
  intro c σ ttl kp fn f args kwargs t₁ t₂ hf hlk
  have hresp : storeResp σ (generate_cache_key (effectivePre kp fn) args kwargs) =
      .ok Option.none := by
    simp [storeResp, hlk]
  have hcall₁ : wrapperCallStore (some c) σ ttl kp fn f args kwargs t₁ =
      ⟨.ok ⟨PyValue.none, false, t₁, "duckdb"⟩,
        some (generate_cache_key (effectivePre kp fn) args kwargs,
          PyValue.none, ttl)⟩ := by
    show wrapperCall (some c) _ ttl kp fn f args kwargs t₁ = _
    rw [hresp, wrapperCall_miss c _ (get_absent c) ttl kp fn f args kwargs t₁, hf]
  refine ⟨by rw [hcall₁], ?_⟩
  rw [hcall₁]
  cases hp : c.pool with
  | none =>
    have hσ : applyPendingSet (some c) σ
        (some (generate_cache_key (effectivePre kp fn) args kwargs,
          PyValue.none, ttl)) = σ := by
      simp [applyPendingSet, hp]
    rw [hσ]
    have hcall₂ : wrapperCallStore (some c) σ ttl kp fn f args kwargs t₂ =
        ⟨.ok ⟨PyValue.none, false, t₂, "duckdb"⟩,
          some (generate_cache_key (effectivePre kp fn) args kwargs,
            PyValue.none, ttl)⟩ := by
      show wrapperCall (some c) _ ttl kp fn f args kwargs t₂ = _
      rw [hresp, wrapperCall_miss c _ (get_poolAbsent hp _) ttl kp fn f args kwargs t₂,
        hf]
    rw [hcall₂]
  | some u =>
    have hσ : applyPendingSet (some c) σ
        (some (generate_cache_key (effectivePre kp fn) args kwargs,
          PyValue.none, ttl)) =
        (generate_cache_key (effectivePre kp fn) args kwargs, "null") :: σ := by
      simp [applyPendingSet, hp]
      rfl
    rw [hσ]
    have hresp₂ : storeResp
        ((generate_cache_key (effectivePre kp fn) args kwargs, "null") :: σ)
        (generate_cache_key (effectivePre kp fn) args kwargs) =
        .ok (some "null") := by
      simp [storeResp, List.lookup]
    have hget : ValkeyCache.get c (.ok (some "null")) = .ok PyValue.none :=
      get_present hp (by decide) (by decide)
    have hcall₂ : wrapperCallStore (some c)
        ((generate_cache_key (effectivePre kp fn) args kwargs, "null") :: σ)
        ttl kp fn f args kwargs t₂ =
        ⟨.ok ⟨PyValue.none, false, t₂, "duckdb"⟩,
          some (generate_cache_key (effectivePre kp fn) args kwargs,
            PyValue.none, ttl)⟩ := by
      show wrapperCall (some c) _ ttl kp fn f args kwargs t₂ = _
      rw [hresp₂, wrapperCall_miss c _ hget ttl kp fn f args kwargs t₂, hf]
    rw [hcall₂]

/-- C10 witness: the behaviour at a concrete `None`-returning function. -/
theorem C10_null_never_hits_witness :
    (wrapperCallStore (some ⟨some ()⟩) [] 300 Option.none "f"
        (fun _ _ => PyValue.none) [] [] 0).result =
      .ok ⟨PyValue.none, false, 0, "duckdb"⟩ ∧
    (wrapperCallStore (some ⟨some ()⟩)
        (applyPendingSet (some ⟨some ()⟩) []
          (wrapperCallStore (some ⟨some ()⟩) [] 300 Option.none "f"
            (fun _ _ => PyValue.none) [] [] 0).pendingSet)
        300 Option.none "f" (fun _ _ => PyValue.none) [] [] 0).result =
      .ok ⟨PyValue.none, false, 0, "duckdb"⟩ :=
  C10_null_never_hits ⟨some ()⟩ [] 300 Option.none "f" (fun _ _ => PyValue.none)
    [] [] 0 0 rfl (by decide)

end PerfPy
